import Mathlib

/-!
Verification of the `ExpressRelayIcon` component
(`src/components/icons/ExpressRelayIcon.tsx`).

The component is a zero-argument JSX function returning a fixed `<svg>`
element with a single `<path>` child.  We embed JSX elements as a tree of
tagged nodes with an ordered attribute list, transcribe the element
literally from the source, and analyse the path-data string with small
executable scanners (command letters, subpath closure, numeric tokens).
-/

/-- A JSX/SVG element: tag name, ordered attribute list, child elements. -/
inductive SvgElement where
  | mk (tag : String) (attributes : List (String × String)) (children : List SvgElement)
deriving Repr

def SvgElement.tag : SvgElement → String
  | .mk t _ _ => t

def SvgElement.attributes : SvgElement → List (String × String)
  | .mk _ a _ => a

def SvgElement.children : SvgElement → List SvgElement
  | .mk _ _ c => c

/-- First attribute value bound to key `k`, as JSX attribute lookup. -/
def getAttr (e : SvgElement) (k : String) : Option String :=
  (e.attributes.find? (fun p => p.1 == k)).map (fun p => p.2)

/-- The literal `d` attribute of the `<path>` element
(`ExpressRelayIcon.tsx`, line 11). -/
def pathD : String :=
  "M24 0C10.75 0 0 10.75 0 24C0 29.68 1.98 34.9 5.28 39.01L11.82 32.47L12.85 31.44L15.95 28.34L19.67 32.06L16.57 35.16L15.54 36.19L9 42.73C13.11 46.03 18.33 48.01 24.01 48.01C37.26 48.01 48.01 37.26 48.01 24.01C48.01 10.76 37.25 0 24 0ZM12.54 23.07C11.68 23.93 10.3 23.93 9.44 23.07C8.58 22.21 8.58 20.83 9.44 19.97L19.97 9.44C20.83 8.58 22.21 8.58 23.07 9.44C23.93 10.3 23.93 11.68 23.07 12.54L12.54 23.07ZM24 33.91L14.09 24L24 14.09L33.91 24L24 33.91ZM38.56 28.03L28.03 38.56C27.17 39.42 25.79 39.42 24.93 38.56C24.07 37.7 24.07 36.32 24.93 35.46L35.46 24.93C36.32 24.07 37.7 24.07 38.56 24.93C39.42 25.79 39.42 27.17 38.56 28.03Z"

/-- The `<path>` child element (`ExpressRelayIcon.tsx`, lines 10-13). -/
def iconPath : SvgElement :=
  .mk "path" [("d", pathD), ("fill", "#E6DAFE")] []

/-- The `<svg>` root element returned by the component
(`ExpressRelayIcon.tsx`, lines 3-14). -/
def iconSvg : SvgElement :=
  .mk "svg"
    [("width", "48"), ("height", "48"), ("viewBox", "0 0 48 48"),
     ("fill", "none"), ("xmlns", "http://www.w3.org/2000/svg")]
    [iconPath]

/-- `const ExpressRelayIcon = () => { return (<svg ...>...</svg>); }`:
a function of no arguments (modelled as `Unit`) whose body is a single
`return` of the literal element. -/
def ExpressRelayIcon : Unit → SvgElement := fun _ => iconSvg

/-- The invocation of the component under JavaScript semantics, where a
function may in principle throw (`Except.error`) or return `null`/
`undefined` (`none`).  The body of `ExpressRelayIcon` is a single `return`
of a literal, so the embedding is unconditionally `ok (some _)`. -/
def render : Unit → Except String (Option SvgElement) :=
  fun u => Except.ok (some (ExpressRelayIcon u))

/-- The `d` attribute of the first child of an element, if any. -/
def firstPathD (e : SvgElement) : Option String :=
  e.children.head?.bind (fun c => getAttr c "d")

/-- The sequence of SVG command letters in a path-data string. -/
def commandLetters (s : String) : List Char :=
  s.data.filter Char.isAlpha

/-- `true` iff `c` is one of the command letters move-to `M`, line-to `L`,
cubic-curve-to `C`, close-path `Z`. -/
def isMLCZ (c : Char) : Bool :=
  c == 'M' || c == 'L' || c == 'C' || c == 'Z'

/-- Scanner for the command letters after an initial move-to: each subpath
must end with `Z`, and a new subpath may start (with `M`) only right after
a `Z`. -/
def closedFromMove : List Char → Bool
  | [] => false
  | ['Z'] => true
  | 'Z' :: 'M' :: rest => closedFromMove rest
  | 'Z' :: _ => false
  | 'M' :: _ => false
  | _ :: rest => closedFromMove rest

/-- Every subpath of the command-letter sequence starts with `M` and is
terminated by a close-path `Z`. -/
def allSubpathsClosed (l : List Char) : Bool :=
  match l with
  | [] => true
  | 'M' :: rest => closedFromMove rest
  | _ => false

/-- Characters that may occur inside a numeric token of this path data. -/
def isNumChar (c : Char) : Bool :=
  c.isDigit || c == '.'

/-- Group the maximal runs of numeric characters of a character list. -/
def numTokensAux : List Char → List Char → List (List Char)
  | [], acc => if acc.isEmpty then [] else [acc.reverse]
  | c :: cs, acc =>
    if isNumChar c then numTokensAux cs (c :: acc)
    else if acc.isEmpty then numTokensAux cs []
    else acc.reverse :: numTokensAux cs []

/-- The numeric tokens of a string, in order of appearance. -/
def numberTokens (s : String) : List (List Char) :=
  numTokensAux s.data []

/-- Read a digit run as a natural number; `none` on a non-digit. -/
def digitsToNatAux : List Char → Nat → Option Nat
  | [], acc => some acc
  | c :: cs, acc =>
    if c.isDigit then digitsToNatAux cs (acc * 10 + (c.toNat - '0'.toNat))
    else none

/-- Exact value of a decimal token in hundredths of a user unit
(the path data uses at most two digits after the point), e.g.
`"24" -> 2400`, `"10.75" -> 1075`, `"10.3" -> 1030`, `"48.01" -> 4801`. -/
def parseHundredths (t : List Char) : Option Nat :=
  let intPart := t.takeWhile (fun c => !(c == '.'))
  let rest := t.dropWhile (fun c => !(c == '.'))
  match rest with
  | [] => (digitsToNatAux intPart 0).map (fun n => n * 100)
  | '.' :: [d] => do
      pure ((← digitsToNatAux intPart 0) * 100 + (← digitsToNatAux [d] 0) * 10)
  | '.' :: [d, e] => do
      pure ((← digitsToNatAux intPart 0) * 100 + (← digitsToNatAux [d, e] 0))
  | _ => none

/-- All numeric coordinates of the icon's path data, in hundredths. -/
def pathCoords : List Nat :=
  (numberTokens pathD).filterMap parseHundredths

/-- The larger of the width and height extents of an element's `viewBox`
attribute, in hundredths; `none` if absent or malformed. -/
def viewBoxMaxExtent (e : SvgElement) : Option Nat := do
  let vb ← getAttr e "viewBox"
  match (numberTokens vb).filterMap parseHundredths with
  | [_, _, w, h] => pure (max w h)
  | _ => none

/-- C1: for every invocation with no arguments, the root element of the
rendered graphic has `viewBox="0 0 48 48"`, width `48` and height `48`. -/
theorem expressRelayIcon_root_dimensions (u : Unit) :
    getAttr (ExpressRelayIcon u) "viewBox" = some "0 0 48 48" ∧
    getAttr (ExpressRelayIcon u) "width" = some "48" ∧
    getAttr (ExpressRelayIcon u) "height" = some "48" :=
  ⟨rfl, rfl, rfl⟩

/-- C2: for every invocation, the rendered graphic has exactly one child,
that child is a `path` element with fill `#E6DAFE`, and it carries no
`stroke` attribute. -/
theorem expressRelayIcon_single_path (u : Unit) :
    ∃ p : SvgElement, (ExpressRelayIcon u).children = [p] ∧
      p.tag = "path" ∧ getAttr p "fill" = some "#E6DAFE" ∧
      getAttr p "stroke" = none :=
  ⟨iconPath, rfl, rfl, rfl, rfl⟩

/-- C3: rendering is deterministic: any two invocations yield outputs with
byte-for-byte identical path-data strings, and the two outputs are
structurally equal. -/
theorem expressRelayIcon_deterministic (u v : Unit) :
    firstPathD (ExpressRelayIcon u) = firstPathD (ExpressRelayIcon v) ∧
    ExpressRelayIcon u = ExpressRelayIcon v :=
  ⟨rfl, rfl⟩

/-- C4: every invocation returns normally: the result is `ok` of the fixed
element, and it is never an error. -/
theorem render_never_fails (u : Unit) :
    render u = Except.ok (some iconSvg) ∧
    ∀ msg : String, render u ≠ Except.error msg :=
  ⟨rfl, fun _ h => Except.noConfusion h⟩

/-- C5: the path data consists only of move (`M`), line (`L`) and
cubic-curve (`C`) drawing commands besides close-path, and every subpath
is a closed outline terminated by a close-path (`Z`) command. -/
theorem pathD_commands_closed :
    (commandLetters pathD).all isMLCZ = true ∧
    allSubpathsClosed (commandLetters pathD) = true :=
  ⟨rfl, rfl⟩

/-- C6: the public interface is a zero-argument invocation that always
returns a renderable node, never `null`/`undefined` and never an error. -/
theorem render_returns_node (u : Unit) :
    ∃ e : SvgElement, render u = Except.ok (some e) :=
  ⟨iconSvg, rfl⟩

/-- C7: the icon is an immutable constant: every invocation returns the
fixed literal `iconSvg`, and any sequence of invocations returns that same
constant at every position. -/
theorem expressRelayIcon_constant (us : List Unit) :
    (∀ u : Unit, ExpressRelayIcon u = iconSvg) ∧
    us.map ExpressRelayIcon = List.replicate us.length iconSvg := by
  refine ⟨fun _ => rfl, ?_⟩
  induction us with
  | nil => rfl
  | cons u us ih => simp [List.replicate_succ, ExpressRelayIcon, ih]

/-- C8: the root `svg` element itself carries `fill="none"`; the color
`#E6DAFE` appears only on the child path, not on the root. -/
theorem expressRelayIcon_root_fill_none (u : Unit) :
    getAttr (ExpressRelayIcon u) "fill" = some "none" ∧
    getAttr (ExpressRelayIcon u) "fill" ≠ some "#E6DAFE" ∧
    ∃ p, (ExpressRelayIcon u).children = [p] ∧
      getAttr p "fill" = some "#E6DAFE" := by
  refine ⟨rfl, ?_, iconPath, rfl, rfl⟩
  show getAttr iconSvg "fill" ≠ some "#E6DAFE"
  decide

/-- C9: the path data has exactly four subpaths (four `M` commands), each
explicitly closed with a `Z`, and uses no command letters other than
`M`, `L`, `C` and `Z`. -/
theorem pathD_four_closed_subpaths :
    (commandLetters pathD).count 'M' = 4 ∧
    (commandLetters pathD).count 'Z' = 4 ∧
    allSubpathsClosed (commandLetters pathD) = true ∧
    (commandLetters pathD).all isMLCZ = true :=
  ⟨rfl, rfl, rfl, rfl⟩

/-- C10: every numeric token of the path data parses exactly (in
hundredths of a user unit); every coordinate lies in `[0, 48.01]`; the
value `48.01` occurs; and it strictly exceeds the 48-unit extent declared
by the root's `viewBox`. -/
theorem pathD_coords_bounded :
    ((numberTokens pathD).all (fun t => (parseHundredths t).isSome)) = true ∧
    pathCoords.all (fun n => n ≤ 4801) = true ∧
    4801 ∈ pathCoords ∧
    viewBoxMaxExtent iconSvg = some 4800 ∧
    ∃ n ∈ pathCoords, 4800 < n := by
  refine ⟨rfl, rfl, by decide, rfl, 4801, by decide, by norm_num⟩
